import Mathlib

/-!
Shallow embedding of `components/sup/src/manager/service/mod.rs` from the
habitat supervisor: the per-service lifecycle controller (`Service`), its
restart policy, gossip-config persistence, initialization latch, and
reconfiguration pipeline.

External collaborators (the OS process supervisor, the census/election
snapshot, the filesystem, the package hooks) are modelled as explicit
inputs: each fallible collaborator call is an `Except`/`Bool` oracle value
supplied to the operation, and each operation returns the new controller
state together with an observable trace (log events, whether a process
restart was issued, which filesystem steps were attempted).
-/

namespace Habitat

instance {ε α : Type} [DecidableEq ε] [DecidableEq α] : DecidableEq (Except ε α) :=
  fun x y =>
    match x, y with
    | Except.ok a, Except.ok b =>
      if h : a = b then isTrue (by rw [h]) else isFalse (by simp [h])
    | Except.error a, Except.error b =>
      if h : a = b then isTrue (by rw [h]) else isFalse (by simp [h])
    | Except.ok _, Except.error _ => isFalse (by simp)
    | Except.error _, Except.ok _ => isFalse (by simp)

/-- `Topology` from `config`: coordination mode, fixed at construction. -/
inductive Topology
  | Standalone
  | Leader
  | Initializer
deriving DecidableEq, Repr

/-- `enum LastRestartDisplay` (mod.rs lines 47-53): log-dedup latch. -/
inductive LastRestartDisplay
  | None
  | ElectionInProgress
  | ElectionNoQuorum
  | ElectionFinished
deriving DecidableEq, Repr

/-- The per-member census record for this service group, as read by
`restart` through `census.me()`: the three election flags. -/
structure CensusEntry where
  election_is_running : Bool
  election_is_no_quorum : Bool
  election_is_finished : Bool
deriving DecidableEq, Repr

/-- One service group's census: the entry for this member (`census.me()`)
and the leader record if any (`census.get_leader()`, modelled by the
leader's member id). -/
structure Census where
  me : CensusEntry
  leader : Option String
deriving DecidableEq, Repr

/-- Association list of group key (`"service.group"`) to census record. -/
def lookupGroup : List (String × Census) → String → Option Census
  | [], _ => none
  | (k', c) :: rest, k => if k' = k then some c else lookupGroup rest k

/-- `CensusList`: the election snapshot handed to `restart`/`reconfigure`. -/
structure CensusList where
  groups : List (String × Census)
deriving DecidableEq, Repr

/-- `census_list.get(key)` (mod.rs line 107). -/
def CensusList.get (cl : CensusList) (k : String) : Option Census :=
  lookupGroup cl.groups k

/-- `struct Service` (mod.rs lines 55-66): the controller-owned mutable
state.  The `ServiceGroup` is kept as its two string components; the
package, supervisor handle and update strategy carry no state read by the
operations verified here beyond the oracles passed per call. -/
structure Service where
  needs_restart : Bool
  initialized : Bool
  last_restart_display : LastRestartDisplay
  service_group_service : String
  service_group_group : String
  topology : Topology
deriving DecidableEq, Repr

/-- `service_group_str` (mod.rs lines 94-98): `"service.group"`. -/
def Service.service_group_str (s : Service) : String :=
  s.service_group_service ++ "." ++ s.service_group_group

/-- Log lines `restart` can emit (mod.rs lines 113-115, 120-123, 130-132). -/
inductive LogEvent
  | electionInProgress
  | electionNoQuorum
  | electionFinished (leader_id : String)
deriving DecidableEq, Repr

/-- How a call to `restart` terminates: normally, with a propagated
supervisor error (`try!`), or by panicking (`Option::unwrap` on `None`). -/
inductive RestartOutcome
  | ok
  | err (e : String)
  | panicked
deriving DecidableEq, Repr

/-- Result of one `restart` call: updated state, termination, emitted log
lines, and whether `supervisor.restart()` was invoked. -/
structure RestartResult where
  svc : Service
  outcome : RestartOutcome
  logs : List LogEvent
  restartIssued : Bool
deriving DecidableEq, Repr

/-- A `restart` branch that touches nothing and returns `Ok(())`. -/
def restartNoop (s : Service) : RestartResult :=
  { svc := s, outcome := .ok, logs := [], restartIssued := false }

/-- Lines 135-136 / 141-142: clear `needs_restart`, then
`try!(self.supervisor.restart())` with the supervisor's result `sup`. -/
def finishRestart (s : Service) (lgs : List LogEvent)
    (sup : Except String Unit) : RestartResult :=
  let s2 := { s with needs_restart := false }
  match sup with
  | Except.ok _ => { svc := s2, outcome := .ok, logs := lgs, restartIssued := true }
  | Except.error e => { svc := s2, outcome := .err e, logs := lgs, restartIssued := true }

/-- Body of the `Leader | Initializer` arm once the census record for this
group has been found (mod.rs lines 110-137): the `if election_is_running
/ else if no_quorum / else if finished` cascade.  In the finished branch
the code first unwraps `census.get_leader()` (line 128) — a missing leader
panics before any state change — then dedups the log line and always
clears `needs_restart` and restarts. -/
def restartElection (s : Service) (census : Census)
    (sup : Except String Unit) : RestartResult :=
  let me := census.me
  if me.election_is_running then
    if s.last_restart_display ≠ LastRestartDisplay.ElectionInProgress then
      { svc := { s with last_restart_display := LastRestartDisplay.ElectionInProgress },
        outcome := .ok, logs := [LogEvent.electionInProgress], restartIssued := false }
    else
      restartNoop s
  else if me.election_is_no_quorum then
    if s.last_restart_display ≠ LastRestartDisplay.ElectionNoQuorum then
      { svc := { s with last_restart_display := LastRestartDisplay.ElectionNoQuorum },
        outcome := .ok, logs := [LogEvent.electionNoQuorum], restartIssued := false }
    else
      restartNoop s
  else if me.election_is_finished then
    match census.leader with
    | none =>
      { svc := s, outcome := .panicked, logs := [], restartIssued := false }
    | some leader_id =>
      if s.last_restart_display ≠ LastRestartDisplay.ElectionFinished then
        finishRestart { s with last_restart_display := LastRestartDisplay.ElectionFinished }
          [LogEvent.electionFinished leader_id] sup
      else
        finishRestart s [] sup
  else
    restartNoop s

/-- `restart` (mod.rs lines 104-146), with the supervisor's restart result
passed in as `sup`. -/
def Service.restart (s : Service) (census_list : CensusList)
    (sup : Except String Unit) : RestartResult :=
  match s.topology with
  | Topology.Leader | Topology.Initializer =>
    match census_list.get (Service.service_group_str s) with
    | some census => restartElection s census sup
    | none => restartNoop s
  | Topology.Standalone =>
    finishRestart s [] sup

/-- The election condition `restart` observes for a census record, with the
code's precedence: running is checked first, then no-quorum, then
finished; otherwise no branch fires. -/
inductive ElectionCondition
  | running
  | noQuorum
  | finished
  | idle
deriving DecidableEq, Repr

/-- The condition the `if / else if` cascade of mod.rs lines 111-126
observes on a census entry. -/
def observedCondition (me : CensusEntry) : ElectionCondition :=
  if me.election_is_running then ElectionCondition.running
  else if me.election_is_no_quorum then ElectionCondition.noQuorum
  else if me.election_is_finished then ElectionCondition.finished
  else ElectionCondition.idle

/-- The display-latch value associated with each observed condition. -/
def displayOf : ElectionCondition → LastRestartDisplay
  | ElectionCondition.running => LastRestartDisplay.ElectionInProgress
  | ElectionCondition.noQuorum => LastRestartDisplay.ElectionNoQuorum
  | ElectionCondition.finished => LastRestartDisplay.ElectionFinished
  | ElectionCondition.idle => LastRestartDisplay.None

/-- Whether a log event reports the given election condition. -/
def logReports : ElectionCondition → LogEvent → Bool
  | ElectionCondition.running, LogEvent.electionInProgress => true
  | ElectionCondition.noQuorum, LogEvent.electionNoQuorum => true
  | ElectionCondition.finished, LogEvent.electionFinished _ => true
  | _, _ => false

/-- Number of emitted log lines reporting condition `c`. -/
def countLogsFor (c : ElectionCondition) (lgs : List LogEvent) : Nat :=
  (lgs.filter (logReports c)).length

/-- Driving `restart` over a sequence of ticks, each with its own census
snapshot and supervisor result; state is threaded (the driver loop keeps
calling on the same `&mut self`), logs are concatenated. -/
def restartSeq (s : Service) :
    List (CensusList × Except String Unit) → Service × List LogEvent
  | [] => (s, [])
  | (cl, sup) :: rest =>
    let r := Service.restart s cl sup
    let t := restartSeq r.svc rest
    (t.1, r.logs ++ t.2)

/-! ### `write_butterfly_service_config` (mod.rs lines 169-233)

The filesystem is modelled by the two paths the function touches: the
canonical `gossip.toml` and the sibling temp file `gossip.toml.write`
(`none` = missing or unreadable).  Each fallible syscall is an oracle
flag.  The content hash (`hcore::crypto::hash`, a BLAKE2b hex digest) is
modelled by an injective, never-empty encoding of the content. -/

/-- Model of `hash::hash_string`: injective and never the empty string,
as the real hex digest is. -/
def hashString (s : String) : String :=
  String.mk ('#' :: s.data)

/-- Lines 171-179: `hash::hash_file` on the canonical path, with a
missing/unreadable file (`Err`) degraded to the empty-string checksum. -/
def currentChecksumOf : Option String → String
  | some c => hashString c
  | none => ""

/-- The two on-disk paths the function touches. -/
structure FsState where
  canonical : Option String
  temp : Option String
deriving DecidableEq, Repr

/-- Success/failure oracle for the five fallible filesystem calls:
`File::create`, `write_all`, `rename`, `set_owner`, `set_permissions`. -/
structure FsOracle where
  createOk : Bool
  writeOk : Bool
  renameOk : Bool
  chownOk : Bool
  chmodOk : Bool
deriving DecidableEq, Repr

/-- The filesystem steps, in the order the code attempts them. -/
inductive FsStep
  | create
  | write
  | rename
  | chown
  | chmod
deriving DecidableEq, Repr

/-- Result of one `write_butterfly_service_config` call: filesystem after
the call, the returned `bool`, and the steps that were attempted. -/
structure WriteResult where
  fs : FsState
  ret : Bool
  steps : List FsStep
deriving DecidableEq, Repr

/-- `write_butterfly_service_config` (mod.rs lines 169-233).  Checksums
gate the write; on the changed path the five calls run in order, each
failure logging and returning `false` immediately.  `File::create`
truncates/creates the temp file; `write_all` fills it; `rename` moves it
over the canonical path. -/
def write_butterfly_service_config (fs : FsState) (ox : FsOracle)
    (config : String) : WriteResult :=
  let current_checksum := currentChecksumOf fs.canonical
  let new_checksum := hashString config
  if new_checksum ≠ current_checksum then
    if ¬ ox.createOk then
      { fs := fs, ret := false, steps := [FsStep.create] }
    else
      let fs1 := { fs with temp := some "" }
      if ¬ ox.writeOk then
        { fs := fs1, ret := false, steps := [FsStep.create, FsStep.write] }
      else
        let fs2 := { fs with temp := some config }
        if ¬ ox.renameOk then
          { fs := fs2, ret := false,
            steps := [FsStep.create, FsStep.write, FsStep.rename] }
        else
          let fs3 : FsState := { canonical := some config, temp := none }
          if ¬ ox.chownOk then
            { fs := fs3, ret := false,
              steps := [FsStep.create, FsStep.write, FsStep.rename, FsStep.chown] }
          else if ¬ ox.chmodOk then
            { fs := fs3, ret := false,
              steps := [FsStep.create, FsStep.write, FsStep.rename, FsStep.chown,
                        FsStep.chmod] }
          else
            { fs := fs3, ret := true,
              steps := [FsStep.create, FsStep.write, FsStep.rename, FsStep.chown,
                        FsStep.chmod] }
  else
    { fs := fs, ret := false, steps := [] }

/-! ### `initialize` (mod.rs lines 239-249) -/

/-- The initialization latch: if not yet initialized, invoke the package's
initialization hook (its result `hook` is only logged), then set
`initialized = true` regardless of outcome.  Returns the new state and
whether the hook was invoked on this call. -/
def initSvc (s : Service) (hook : Except String Unit) : Service × Bool :=
  if ¬ s.initialized then
    match hook with
    | Except.ok _ => ({ s with initialized := true }, true)
    | Except.error _ => ({ s with initialized := true }, true)
  else
    (s, false)

/-- Driving `initSvc` over a list of per-call hook results; returns the
final state and the total number of hook invocations. -/
def initSvcN (s : Service) : List (Except String Unit) → Service × Nat
  | [] => (s, 0)
  | h :: hs =>
    let (s1, invoked) := initSvc s h
    let (s2, n) := initSvcN s1 hs
    (s2, (if invoked then 1 else 0) + n)

/-! ### `reconfigure` (mod.rs lines 251-286)

`ServiceConfig::new`, `service_config.write` and `package.reconfigure()`
are the fallible collaborator calls, supplied as an oracle; the pipeline
steps actually performed are recorded in order. -/

/-- Oracle for the collaborator calls `reconfigure` makes. -/
structure ReconfigOracle where
  scNew : Except String Unit
  scWrite : Except String Bool
  pkgReconfigure : Except String Unit
deriving DecidableEq, Repr

/-- The pipeline steps of `reconfigure`, in source order. -/
inductive ReconfigStep
  | scNew
  | createSvcPath
  | scWrite
  | pkgReconfigureHook
  | loadHooks
  | copyRun
  | compileAll
deriving DecidableEq, Repr

/-- Log lines `reconfigure` can emit. -/
inductive ReconfigLog
  | configGenError (e : String)
  | hookFailed (e : String)
  | writeFailed (e : String)
deriving DecidableEq, Repr

/-- Result of one `reconfigure` call. -/
structure ReconfigResult where
  svc : Service
  steps : List ReconfigStep
  logs : List ReconfigLog
deriving DecidableEq, Repr

/-- `reconfigure` (mod.rs lines 251-286).  On `ServiceConfig::new` failure
the function logs and returns.  Otherwise it creates the svc path and
matches on `service_config.write`: `Ok(true)` sets `needs_restart = true`
and runs the reconfigure hook (hook failure only logged); `Ok(false)` does
nothing; `Err(e)` logs — and in all three cases `load_hooks`, `copy_run`
and `compile_all` then run (lines 282-285 are after the match, not gated
by it). -/
def Service.reconfigure (s : Service) (ox : ReconfigOracle) : ReconfigResult :=
  match ox.scNew with
  | Except.error e =>
    { svc := s, steps := [ReconfigStep.scNew], logs := [ReconfigLog.configGenError e] }
  | Except.ok _ =>
    match ox.scWrite with
    | Except.ok true =>
      let s1 := { s with needs_restart := true }
      let lgs := match ox.pkgReconfigure with
        | Except.ok _ => []
        | Except.error e => [ReconfigLog.hookFailed e]
      { svc := s1,
        steps := [ReconfigStep.scNew, ReconfigStep.createSvcPath, ReconfigStep.scWrite,
                  ReconfigStep.pkgReconfigureHook, ReconfigStep.loadHooks,
                  ReconfigStep.copyRun, ReconfigStep.compileAll],
        logs := lgs }
    | Except.ok false =>
      { svc := s,
        steps := [ReconfigStep.scNew, ReconfigStep.createSvcPath, ReconfigStep.scWrite,
                  ReconfigStep.loadHooks, ReconfigStep.copyRun, ReconfigStep.compileAll],
        logs := [] }
    | Except.error e =>
      { svc := s,
        steps := [ReconfigStep.scNew, ReconfigStep.createSvcPath, ReconfigStep.scWrite,
                  ReconfigStep.loadHooks, ReconfigStep.copyRun, ReconfigStep.compileAll],
        logs := [ReconfigLog.writeFailed e] }

/-! ### Concrete fixtures used by counterexamples and witnesses -/

/-- A `redis.default` service under `Standalone` topology. -/
def svcStandalone : Service :=
  { needs_restart := false, initialized := false,
    last_restart_display := LastRestartDisplay.None,
    service_group_service := "redis", service_group_group := "default",
    topology := Topology.Standalone }

/-- A `redis.default` service under `Leader` topology, restart pending. -/
def svcLeader : Service :=
  { needs_restart := true, initialized := false,
    last_restart_display := LastRestartDisplay.None,
    service_group_service := "redis", service_group_group := "default",
    topology := Topology.Leader }

/-- A census record whose entry reports election running and no-quorum
both true. -/
def censusBothFlags : Census :=
  { me := { election_is_running := true, election_is_no_quorum := true,
            election_is_finished := false },
    leader := none }

/-- Census list holding `censusBothFlags` under the `redis.default` key. -/
def clBothFlags : CensusList :=
  { groups := [("redis.default", censusBothFlags)] }

/-- A census record reporting a finished election with leader `node-42`. -/
def censusFinished : Census :=
  { me := { election_is_running := false, election_is_no_quorum := false,
            election_is_finished := true },
    leader := some "node-42" }

/-- Census list holding `censusFinished` under the `redis.default` key. -/
def clFinished : CensusList :=
  { groups := [("redis.default", censusFinished)] }

/-- A census record whose entry reports only a running election. -/
def censusRunning : Census :=
  { me := { election_is_running := true, election_is_no_quorum := false,
            election_is_finished := false },
    leader := none }

/-- Census list holding `censusRunning` under the `redis.default` key. -/
def clRunning : CensusList :=
  { groups := [("redis.default", censusRunning)] }

/-- A reconfigure oracle whose config write fails with `disk full`. -/
def oxWriteErr : ReconfigOracle :=
  { scNew := Except.ok (), scWrite := Except.error "disk full",
    pkgReconfigure := Except.ok () }

/-- A filesystem state whose canonical path already holds `"a=1"`. -/
def fsHolding : FsState := { canonical := some "a=1", temp := none }

/-- A filesystem state with no file at either path. -/
def fsEmpty : FsState := { canonical := none, temp := none }

/-- A filesystem oracle on which every step succeeds. -/
def oxAllOk : FsOracle :=
  { createOk := true, writeOk := true, renameOk := true,
    chownOk := true, chmodOk := true }

/-- A filesystem oracle on which `File::create` fails. -/
def oxCreateFails : FsOracle :=
  { createOk := false, writeOk := true, renameOk := true,
    chownOk := true, chmodOk := true }

/-! ### Helper lemmas -/

/-- The election arm of `restart` only ever mutates `needs_restart` and
`last_restart_display`. -/
theorem restartElection_preserves (s : Service) (census : Census)
    (sup : Except String Unit) :
    (restartElection s census sup).svc.topology = s.topology
    ∧ (restartElection s census sup).svc.service_group_service = s.service_group_service
    ∧ (restartElection s census sup).svc.service_group_group = s.service_group_group
    ∧ (restartElection s census sup).svc.initialized = s.initialized := by
  obtain ⟨⟨r, q, f⟩, ld⟩ := census
  cases r <;> cases q <;> cases f <;> cases ld <;> cases sup <;>
    simp [restartElection, restartNoop, finishRestart, apply_ite]

/-- Unfolding `restart` under `Standalone` topology. -/
theorem restart_eq_standalone (s : Service) (cl : CensusList)
    (sup : Except String Unit) (h : s.topology = Topology.Standalone) :
    Service.restart s cl sup = finishRestart s [] sup := by
  simp only [Service.restart, h]

/-- Unfolding `restart` under `Leader` or `Initializer` topology. -/
theorem restart_eq_coordinated (s : Service) (cl : CensusList)
    (sup : Except String Unit)
    (h : s.topology = Topology.Leader ∨ s.topology = Topology.Initializer) :
    Service.restart s cl sup =
      (match CensusList.get cl (Service.service_group_str s) with
        | some census => restartElection s census sup
        | none => restartNoop s) := by
  rcases h with h | h <;> simp only [Service.restart, h]

/-- `restart` only ever mutates `needs_restart` and `last_restart_display`:
topology, the group identity and the `initialized` latch are preserved. -/
theorem restart_preserves_static (s : Service) (cl : CensusList)
    (sup : Except String Unit) :
    (Service.restart s cl sup).svc.topology = s.topology
    ∧ (Service.restart s cl sup).svc.service_group_service = s.service_group_service
    ∧ (Service.restart s cl sup).svc.service_group_group = s.service_group_group
    ∧ (Service.restart s cl sup).svc.initialized = s.initialized := by
  rcases hts : s.topology with _ | _ | _
  · rw [restart_eq_standalone s cl sup hts]
    cases sup <;> simp [finishRestart, hts]
  · rw [restart_eq_coordinated s cl sup (Or.inl hts)]
    cases CensusList.get cl (Service.service_group_str s) with
    | none => simp [restartNoop, hts]
    | some census => simpa [hts] using restartElection_preserves s census sup
  · rw [restart_eq_coordinated s cl sup (Or.inr hts)]
    cases CensusList.get cl (Service.service_group_str s) with
    | none => simp [restartNoop, hts]
    | some census => simpa [hts] using restartElection_preserves s census sup

/-- `reconfigure` only ever mutates `needs_restart`. -/
theorem reconfigure_preserves_static (s : Service) (ox : ReconfigOracle) :
    (Service.reconfigure s ox).svc.topology = s.topology
    ∧ (Service.reconfigure s ox).svc.service_group_service = s.service_group_service
    ∧ (Service.reconfigure s ox).svc.service_group_group = s.service_group_group
    ∧ (Service.reconfigure s ox).svc.initialized = s.initialized
    ∧ (Service.reconfigure s ox).svc.last_restart_display = s.last_restart_display := by
  obtain ⟨n, w, p⟩ := ox
  cases n <;> cases p <;> rcases w with e | b <;>
    simp [Service.reconfigure] <;> cases b <;> simp [Service.reconfigure]

/-- A service already initialized is left untouched by `initSvc`. -/
theorem initSvc_of_initialized (t : Service) (h : Except String Unit)
    (ht : t.initialized = true) : initSvc t h = (t, false) := by
  simp [initSvc, ht]

/-- Once initialized, further `initSvc` calls change nothing and invoke the
hook zero more times. -/
theorem initSvcN_of_initialized (hs : List (Except String Unit)) :
    ∀ t : Service, t.initialized = true → initSvcN t hs = (t, 0) := by
  induction hs with
  | nil => intro t ht; rfl
  | cons a as ih =>
    intro t ht
    simp [initSvcN, initSvc_of_initialized t a ht, ih t ht]

/-- Unfolding `restart` when coordinated and the census has this group. -/
theorem restart_get_some (s : Service) (cl : CensusList)
    (sup : Except String Unit) (census : Census)
    (htop : s.topology = Topology.Leader ∨ s.topology = Topology.Initializer)
    (hget : CensusList.get cl (Service.service_group_str s) = some census) :
    Service.restart s cl sup = restartElection s census sup := by
  rw [restart_eq_coordinated s cl sup htop, hget]

/-- Unfolding `restart` when coordinated and the census lacks this group. -/
theorem restart_get_none (s : Service) (cl : CensusList)
    (sup : Except String Unit)
    (htop : s.topology = Topology.Leader ∨ s.topology = Topology.Initializer)
    (hget : CensusList.get cl (Service.service_group_str s) = none) :
    Service.restart s cl sup = restartNoop s := by
  rw [restart_eq_coordinated s cl sup htop, hget]

/-- The observed condition is `finished` exactly when the finished flag is
set and neither the running nor the no-quorum flag is. -/
theorem observedCondition_finished_iff (me : CensusEntry) :
    observedCondition me = ElectionCondition.finished ↔
      me.election_is_running = false ∧ me.election_is_no_quorum = false
        ∧ me.election_is_finished = true := by
  obtain ⟨r, q, f⟩ := me
  cases r <;> cases q <;> cases f <;> simp [observedCondition]

/-- Changing only the display latch does not change the group key. -/
theorem service_group_str_display (s : Service) (d : LastRestartDisplay) :
    Service.service_group_str { s with last_restart_display := d }
      = Service.service_group_str s := rfl

/-- A restart is issued by the election arm exactly when the observed
condition is finished and a leader is present; `needs_restart` is cleared
exactly when a restart is issued. -/
theorem restartElection_issued (s : Service) (census : Census)
    (sup : Except String Unit) :
    ((restartElection s census sup).restartIssued = true ↔
      (observedCondition census.me = ElectionCondition.finished
        ∧ census.leader.isSome = true))
    ∧ ((restartElection s census sup).restartIssued = true →
        (restartElection s census sup).svc.needs_restart = false)
    ∧ ((restartElection s census sup).restartIssued = false →
        (restartElection s census sup).svc.needs_restart = s.needs_restart) := by
  obtain ⟨⟨r, q, f⟩, ld⟩ := census
  cases r <;> cases q <;> cases f <;> cases ld <;> cases sup <;>
    simp [restartElection, restartNoop, finishRestart, observedCondition, apply_ite]

/-- Whether the election arm issues a restart does not depend on the
current display latch. -/
theorem restartElection_issued_display (s : Service) (census : Census)
    (sup : Except String Unit) (d : LastRestartDisplay) :
    (restartElection { s with last_restart_display := d } census sup).restartIssued
      = (restartElection s census sup).restartIssued := by
  obtain ⟨⟨r, q, f⟩, ld⟩ := census
  cases r <;> cases q <;> cases f <;> cases ld <;> cases sup <;>
    simp [restartElection, restartNoop, finishRestart, apply_ite]

/-- Per-call log dedup facts for the election arm, for the observed
condition `c`: at most one line reporting `c` is emitted; a line is
emitted only when the latch differs from `displayOf c`, and then the latch
is set to `displayOf c`; when the latch already equals `displayOf c`
nothing is emitted; and a silent call leaves the latch unchanged. -/
theorem restartElection_dedup (s : Service) (census : Census)
    (sup : Except String Unit) (c : ElectionCondition)
    (hc : observedCondition census.me = c) :
    countLogsFor c (restartElection s census sup).logs ≤ 1
    ∧ ((restartElection s census sup).logs ≠ [] →
        s.last_restart_display ≠ displayOf c
        ∧ (restartElection s census sup).svc.last_restart_display = displayOf c)
    ∧ (s.last_restart_display = displayOf c →
        (restartElection s census sup).logs = []
        ∧ (restartElection s census sup).svc.last_restart_display = displayOf c)
    ∧ ((restartElection s census sup).logs = [] →
        (restartElection s census sup).svc.last_restart_display
          = s.last_restart_display) := by
  obtain ⟨⟨r, q, f⟩, ld⟩ := census
  cases r <;> cases q <;> cases f <;> cases ld <;> cases sup <;>
    (simp [observedCondition] at hc
     subst hc
     simp only [restartElection, restartNoop, finishRestart]
     split_ifs <;>
       simp_all [countLogsFor, logReports, displayOf])

/-- Whether `restart` issues a process restart does not depend on the
current display latch, whatever the topology. -/
theorem restart_issued_display (s : Service) (cl : CensusList)
    (sup : Except String Unit) (d : LastRestartDisplay) :
    (Service.restart { s with last_restart_display := d } cl sup).restartIssued
      = (Service.restart s cl sup).restartIssued := by
  obtain ⟨nr, ini, lrd, sgs, sgg, tp⟩ := s
  cases tp
  case Standalone => cases sup <;> simp [Service.restart, finishRestart]
  all_goals
    simp only [Service.restart, Service.service_group_str]
    cases hg : CensusList.get cl (sgs ++ "." ++ sgg) with
    | none => simp [restartNoop]
    | some census =>
      exact restartElection_issued_display ⟨nr, ini, lrd, sgs, sgg, _⟩ census sup d

/-- Counting condition-`c` lines distributes over log concatenation. -/
theorem countLogsFor_append (c : ElectionCondition) (a b : List LogEvent) :
    countLogsFor c (a ++ b) = countLogsFor c a + countLogsFor c b := by
  simp [countLogsFor, List.filter_append]

/-- Once the latch already shows `displayOf c`, a run of ticks that all
observe condition `c` emits no line reporting `c` at all. -/
theorem restartSeq_count_zero (c : ElectionCondition)
    (ticks : List (CensusList × Except String Unit)) :
    ∀ s : Service,
      (s.topology = Topology.Leader ∨ s.topology = Topology.Initializer) →
      (∀ t ∈ ticks, ∃ census : Census,
        CensusList.get t.1 (Service.service_group_str s) = some census
        ∧ observedCondition census.me = c) →
      s.last_restart_display = displayOf c →
      countLogsFor c (restartSeq s ticks).2 = 0 := by
  induction ticks with
  | nil => intro s _ _ _; simp [restartSeq, countLogsFor]
  | cons t ts ih =>
    obtain ⟨cl, sup⟩ := t
    intro s htop hticks hd
    obtain ⟨census, hget, hcond⟩ := hticks (cl, sup) (by simp)
    have hre : Service.restart s cl sup = restartElection s census sup :=
      restart_get_some s cl sup census htop hget
    have hded := restartElection_dedup s census sup c hcond
    have hlogs : (restartElection s census sup).logs = [] := (hded.2.2.1 hd).1
    have hdisp : (restartElection s census sup).svc.last_restart_display
        = displayOf c := (hded.2.2.1 hd).2
    have hpres := restartElection_preserves s census sup
    have hsgs : Service.service_group_str ((restartElection s census sup).svc)
        = Service.service_group_str s := by
      unfold Service.service_group_str
      rw [hpres.2.1, hpres.2.2.1]
    have htail := ih ((restartElection s census sup).svc)
      (by rw [hpres.1]; exact htop)
      (by
        intro u hu
        obtain ⟨census', hget', hcond'⟩ := hticks u (by simp [hu])
        exact ⟨census', by rw [hsgs]; exact hget', hcond'⟩)
      hdisp
    simp only [restartSeq, hre, countLogsFor_append, hlogs, htail]
    simp [countLogsFor]

/-- A run of ticks that all observe the same condition `c` emits at most
one line reporting `c` in total. -/
theorem restartSeq_count_le_one (c : ElectionCondition)
    (ticks : List (CensusList × Except String Unit)) :
    ∀ s : Service,
      (s.topology = Topology.Leader ∨ s.topology = Topology.Initializer) →
      (∀ t ∈ ticks, ∃ census : Census,
        CensusList.get t.1 (Service.service_group_str s) = some census
        ∧ observedCondition census.me = c) →
      countLogsFor c (restartSeq s ticks).2 ≤ 1 := by
  induction ticks with
  | nil => intro s _ _; simp [restartSeq, countLogsFor]
  | cons t ts ih =>
    obtain ⟨cl, sup⟩ := t
    intro s htop hticks
    obtain ⟨census, hget, hcond⟩ := hticks (cl, sup) (by simp)
    have hre : Service.restart s cl sup = restartElection s census sup :=
      restart_get_some s cl sup census htop hget
    have hded := restartElection_dedup s census sup c hcond
    have hpres := restartElection_preserves s census sup
    have hsgs : Service.service_group_str ((restartElection s census sup).svc)
        = Service.service_group_str s := by
      unfold Service.service_group_str
      rw [hpres.2.1, hpres.2.2.1]
    have hticks' : ∀ t ∈ ts, ∃ census' : Census,
        CensusList.get t.1
          (Service.service_group_str ((restartElection s census sup).svc))
          = some census'
        ∧ observedCondition census'.me = c := by
      intro u hu
      obtain ⟨census', hget', hcond'⟩ := hticks u (by simp [hu])
      exact ⟨census', by rw [hsgs]; exact hget', hcond'⟩
    by_cases hl : (restartElection s census sup).logs = []
    · have htail := ih ((restartElection s census sup).svc)
        (by rw [hpres.1]; exact htop) hticks'
      simp only [restartSeq, hre, countLogsFor_append, hl]
      simpa [countLogsFor] using htail
    · have hdisp := (hded.2.1 hl).2
      have htail := restartSeq_count_zero c ts ((restartElection s census sup).svc)
        (by rw [hpres.1]; exact htop) hticks' hdisp
      have hhead := hded.1
      simp only [restartSeq, hre, countLogsFor_append, htail]
      simpa using hhead

/-- The model digest is injective. -/
theorem hashString_inj {a b : String} (h : hashString a = hashString b) :
    a = b := by
  cases a with | mk da =>
  cases b with | mk db =>
  unfold hashString at h
  injection h with h2
  injection h2 with h3 h4
  have h5 : da = db := h4
  rw [h5]

/-- The model digest of any string is nonempty, so it never collides with
the empty-checksum marker used for a missing file. -/
theorem hashString_ne_empty (s : String) : hashString s ≠ "" := by
  intro h
  have h2 : ('#' :: s.data) = ([] : List Char) := congrArg String.data h
  exact List.noConfusion h2

/-! ### Claims -/

/-- Claim C5: `initialize()` invoked N > 1 times runs the package's
initialization hook exactly once — the first call invokes the hook and
sets `initialized` whether the hook succeeds or fails, every later call is
a no-op — and `initialized` is monotonic: it transitions only from false
to true and is never reset by `restart`, `reconfigure` or the latch
itself. -/
theorem initSvc_runs_hook_exactly_once
    (s : Service) (hooks : List (Except String Unit))
    (hinit : s.initialized = false) (hne : 0 < hooks.length) :
    (initSvcN s hooks).2 = 1
    ∧ ((initSvcN s hooks).1).initialized = true
    ∧ (∀ h : Except String Unit,
        ((initSvc s h).1).initialized = true ∧ (initSvc s h).2 = true)
    ∧ (∀ (t : Service) (h : Except String Unit),
        t.initialized = true → initSvc t h = (t, false))
    ∧ (∀ (t : Service) (cl : CensusList) (sup : Except String Unit),
        (Service.restart t cl sup).svc.initialized = t.initialized)
    ∧ (∀ (t : Service) (ox : ReconfigOracle),
        (Service.reconfigure t ox).svc.initialized = t.initialized) := by
  cases hooks with
  | nil => simp at hne
  | cons a as =>
    have hfirst : initSvc s a = ({ s with initialized := true }, true) := by
      cases a <;> simp [initSvc, hinit]
    have hrest := initSvcN_of_initialized as { s with initialized := true } (by simp)
    refine ⟨?_, ?_, ?_, ?_, ?_, ?_⟩
    · simp [initSvcN, hfirst, hrest]
    · simp [initSvcN, hfirst, hrest]
    · intro h; cases h <;> simp [initSvc, hinit]
    · intro t h ht; exact initSvc_of_initialized t h ht
    · intro t cl sup; exact (restart_preserves_static t cl sup).2.2.2
    · intro t ox; exact (reconfigure_preserves_static t ox).2.2.2.1

/-- Witness for C5 at a concrete input: two calls, the second hook result
an error, still yield exactly one hook invocation and a set latch. -/
theorem initSvc_runs_hook_exactly_once_witness :
    (initSvcN svcStandalone [Except.ok (), Except.error "boom"]).2 = 1
    ∧ ((initSvcN svcStandalone [Except.ok (), Except.error "boom"]).1).initialized
        = true := by
  have h := initSvc_runs_hook_exactly_once svcStandalone
    [Except.ok (), Except.error "boom"] rfl (by decide)
  exact ⟨h.1, h.2.1⟩

/-- Claim C6: a `reconfigure` whose config write reports unchanged leaves
`needs_restart` at its prior value; one whose write reports changed sets
`needs_restart := true`, and the assignment stands even when the package's
reconfigure hook then fails. -/
theorem reconfigure_needs_restart_policy
    (s : Service) (ox : ReconfigOracle) (hnew : ox.scNew = Except.ok ()) :
    (ox.scWrite = Except.ok false →
      (Service.reconfigure s ox).svc.needs_restart = s.needs_restart)
    ∧ (ox.scWrite = Except.ok true →
      (Service.reconfigure s ox).svc.needs_restart = true)
    ∧ (∀ e : String, ox.scWrite = Except.ok true →
        ox.pkgReconfigure = Except.error e →
        (Service.reconfigure s ox).svc.needs_restart = true) := by
  refine ⟨fun hw => ?_, fun hw => ?_, fun e hw hp => ?_⟩ <;>
    simp [Service.reconfigure, hnew, hw]

/-- Witness for C6 at concrete inputs: unchanged write keeps the pending
flag, changed write sets it although the hook fails. -/
theorem reconfigure_needs_restart_policy_witness :
    (Service.reconfigure svcLeader
      { scNew := Except.ok (), scWrite := Except.ok false,
        pkgReconfigure := Except.ok () }).svc.needs_restart
      = svcLeader.needs_restart
    ∧ (Service.reconfigure svcStandalone
        { scNew := Except.ok (), scWrite := Except.ok true,
          pkgReconfigure := Except.error "hook failed" }).svc.needs_restart
      = true := by
  refine ⟨?_, ?_⟩
  · exact (reconfigure_needs_restart_policy svcLeader
      { scNew := Except.ok (), scWrite := Except.ok false,
        pkgReconfigure := Except.ok () } rfl).1 rfl
  · exact (reconfigure_needs_restart_policy svcStandalone
      { scNew := Except.ok (), scWrite := Except.ok true,
        pkgReconfigure := Except.error "hook failed" } rfl).2.2 "hook failed" rfl rfl

/-- Counterexample to claim C3: at a concrete state and a config write
failing with `disk full`, `reconfigure` logs the failure but the
subsequent steps — reloading hook definitions, regenerating the run
entrypoint, recompiling hooks — DO run on that call, contradicting the
claimed early return. -/
theorem reconfigure_write_error_cex :
    (Service.reconfigure svcStandalone oxWriteErr).logs
        = [ReconfigLog.writeFailed "disk full"]
    ∧ ReconfigStep.loadHooks ∈ (Service.reconfigure svcStandalone oxWriteErr).steps
    ∧ ReconfigStep.copyRun ∈ (Service.reconfigure svcStandalone oxWriteErr).steps
    ∧ ReconfigStep.compileAll ∈ (Service.reconfigure svcStandalone oxWriteErr).steps := by
  decide

/-- Claim C3 as amended: when writing the rendered configuration fails,
the error is logged, the controller state is untouched and the
reconfigure hook is skipped, but the trailing pipeline steps (reload hook
definitions, regenerate the run entrypoint, recompile hooks) still run. -/
theorem reconfigure_write_error_continues
    (s : Service) (ox : ReconfigOracle) (e : String)
    (hnew : ox.scNew = Except.ok ()) (hw : ox.scWrite = Except.error e) :
    (Service.reconfigure s ox).logs = [ReconfigLog.writeFailed e]
    ∧ (Service.reconfigure s ox).svc = s
    ∧ ReconfigStep.pkgReconfigureHook ∉ (Service.reconfigure s ox).steps
    ∧ (Service.reconfigure s ox).steps =
        [ReconfigStep.scNew, ReconfigStep.createSvcPath, ReconfigStep.scWrite,
         ReconfigStep.loadHooks, ReconfigStep.copyRun, ReconfigStep.compileAll] := by
  simp [Service.reconfigure, hnew, hw]

/-- Witness for the amended C3 at a concrete input. -/
theorem reconfigure_write_error_continues_witness :
    (Service.reconfigure svcLeader oxWriteErr).svc = svcLeader
    ∧ ReconfigStep.pkgReconfigureHook
        ∉ (Service.reconfigure svcLeader oxWriteErr).steps := by
  have h := reconfigure_write_error_continues svcLeader oxWriteErr "disk full" rfl rfl
  exact ⟨h.2.1, h.2.2.1⟩

/-- Counterexample to claim C8: with a census record reporting both
running and no-quorum true, `restart` reports the RUNNING condition — the
display latch becomes `ElectionInProgress`, not `ElectionNoQuorum`, and
the emitted line is the election-in-progress one. -/
theorem restart_both_flags_cex :
    (Service.restart svcLeader clBothFlags (Except.ok ())).svc.last_restart_display
        = LastRestartDisplay.ElectionInProgress
    ∧ (Service.restart svcLeader clBothFlags (Except.ok ())).svc.last_restart_display
        ≠ LastRestartDisplay.ElectionNoQuorum
    ∧ (Service.restart svcLeader clBothFlags (Except.ok ())).logs
        = [LogEvent.electionInProgress]
    ∧ (Service.restart svcLeader clBothFlags (Except.ok ())).restartIssued = false := by
  decide

/-- Claim C8 as amended: under coordinated topology, when the census entry
has the no-quorum flag set, the branch taken depends on the running flag —
running true observes and reports the running condition (latch to
`ElectionInProgress`, no no-quorum warning); only with running false is
the no-quorum condition observed (warning when the latch differs, latch to
`ElectionNoQuorum`).  In both cases no restart is issued and the call does
not conclude finished. -/
theorem restart_running_precedes_noquorum
    (s : Service) (cl : CensusList) (sup : Except String Unit) (census : Census)
    (htop : s.topology = Topology.Leader ∨ s.topology = Topology.Initializer)
    (hget : CensusList.get cl (Service.service_group_str s) = some census)
    (hq : census.me.election_is_no_quorum = true) :
    (census.me.election_is_running = true →
      (Service.restart s cl sup).restartIssued = false
      ∧ (Service.restart s cl sup).outcome = RestartOutcome.ok
      ∧ (Service.restart s cl sup).svc.last_restart_display
          = LastRestartDisplay.ElectionInProgress
      ∧ LogEvent.electionNoQuorum ∉ (Service.restart s cl sup).logs
      ∧ (Service.restart s cl sup).svc.needs_restart = s.needs_restart)
    ∧ (census.me.election_is_running = false →
      (Service.restart s cl sup).restartIssued = false
      ∧ (Service.restart s cl sup).outcome = RestartOutcome.ok
      ∧ (Service.restart s cl sup).svc.last_restart_display
          = LastRestartDisplay.ElectionNoQuorum
      ∧ (Service.restart s cl sup).logs =
          (if s.last_restart_display ≠ LastRestartDisplay.ElectionNoQuorum
           then [LogEvent.electionNoQuorum] else [])
      ∧ (Service.restart s cl sup).svc.needs_restart = s.needs_restart) := by
  rw [restart_get_some s cl sup census htop hget]
  constructor
  · intro hr
    simp only [restartElection, hr, if_true]
    split_ifs with hd <;> simp_all [restartNoop]
  · intro hr
    simp only [restartElection, hr, hq]
    split_ifs with hd <;> simp_all [restartNoop]

/-- Witness for the amended C8 at concrete inputs: both-flags census takes
the running branch; a running-false no-quorum census takes the no-quorum
branch. -/
theorem restart_running_precedes_noquorum_witness :
    (Service.restart svcLeader clBothFlags (Except.error "sup down")).restartIssued
        = false
    ∧ (Service.restart svcLeader clBothFlags
        (Except.error "sup down")).svc.last_restart_display
        = LastRestartDisplay.ElectionInProgress := by
  have h := (restart_running_precedes_noquorum svcLeader clBothFlags
    (Except.error "sup down") censusBothFlags (Or.inl rfl) rfl rfl).1 rfl
  exact ⟨h.1, h.2.2.1⟩

/-- Claim C9: under coordinated topology, a census record whose observed
condition is finished but which carries no leader makes `restart` panic
(the `unwrap` on `get_leader()`), touching nothing else; and under the
collaborator contract that a finished election always carries a leader,
the panic is unreachable. -/
theorem restart_missing_leader_panics
    (s : Service) (cl : CensusList) (sup : Except String Unit) :
    (∀ census : Census,
      (s.topology = Topology.Leader ∨ s.topology = Topology.Initializer) →
      CensusList.get cl (Service.service_group_str s) = some census →
      observedCondition census.me = ElectionCondition.finished →
      census.leader = none →
      (Service.restart s cl sup).outcome = RestartOutcome.panicked
      ∧ (Service.restart s cl sup).restartIssued = false
      ∧ (Service.restart s cl sup).svc = s
      ∧ (Service.restart s cl sup).logs = [])
    ∧ ((∀ census : Census,
          CensusList.get cl (Service.service_group_str s) = some census →
          observedCondition census.me = ElectionCondition.finished →
          census.leader.isSome = true) →
        (Service.restart s cl sup).outcome ≠ RestartOutcome.panicked) := by
  constructor
  · intro census htop hget hcond hld
    obtain ⟨hr, hq, hf⟩ := (observedCondition_finished_iff census.me).mp hcond
    rw [restart_get_some s cl sup census htop hget]
    simp [restartElection, hr, hq, hf, hld]
  · intro hcontract
    rcases hts : s.topology with _ | _ | _
    · rw [restart_eq_standalone s cl sup hts]
      cases sup <;> simp [finishRestart]
    all_goals
      first
        | (rw [restart_eq_coordinated s cl sup (Or.inl hts)]
           cases hg : CensusList.get cl (Service.service_group_str s) with
           | none => simp [restartNoop]
           | some census =>
             rcases census with ⟨⟨r, q, f⟩, ld⟩
             cases r <;> cases q <;> cases f <;> cases ld <;> cases sup <;>
               simp [restartElection, restartNoop, finishRestart, apply_ite] <;>
               exact absurd (hcontract _ hg (by simp [observedCondition])) (by simp))
        | (rw [restart_eq_coordinated s cl sup (Or.inr hts)]
           cases hg : CensusList.get cl (Service.service_group_str s) with
           | none => simp [restartNoop]
           | some census =>
             rcases census with ⟨⟨r, q, f⟩, ld⟩
             cases r <;> cases q <;> cases f <;> cases ld <;> cases sup <;>
               simp [restartElection, restartNoop, finishRestart, apply_ite] <;>
               exact absurd (hcontract _ hg (by simp [observedCondition])) (by simp))

/-- Witness for C9: a finished election without a leader record panics at
a concrete input, and with the leader present the panic is unreachable. -/
theorem restart_missing_leader_panics_witness :
    (Service.restart svcLeader
        { groups := [("redis.default",
            { me := { election_is_running := false, election_is_no_quorum := false,
                      election_is_finished := true },
              leader := none })] }
        (Except.ok ())).outcome = RestartOutcome.panicked
    ∧ (Service.restart svcLeader clFinished (Except.ok ())).outcome
        ≠ RestartOutcome.panicked := by
  constructor
  · exact ((restart_missing_leader_panics svcLeader
      { groups := [("redis.default",
          { me := { election_is_running := false, election_is_no_quorum := false,
                    election_is_finished := true },
            leader := none })] }
      (Except.ok ())).1 _ (Or.inl rfl) rfl (by decide) rfl).1
  · apply (restart_missing_leader_panics svcLeader clFinished (Except.ok ())).2
    intro census hget hcond
    have h3 : (some censusFinished : Option Census) = some census := by
      rw [← hget]; decide
    rw [← Option.some.inj h3]
    decide

/-- Claim C10: in both restart-issuing branches (`Standalone`, and
coordinated with a finished election and a leader), a failing supervisor
restart propagates its error to the caller while `needs_restart` has
already been cleared — a failed restart attempt still discharges the
pending flag. -/
theorem restart_error_propagates_flag_cleared
    (s : Service) (cl : CensusList) (e : String) :
    (s.topology = Topology.Standalone →
      (Service.restart s cl (Except.error e)).outcome = RestartOutcome.err e
      ∧ (Service.restart s cl (Except.error e)).svc.needs_restart = false
      ∧ (Service.restart s cl (Except.error e)).restartIssued = true)
    ∧ (∀ (census : Census) (leader_id : String),
        (s.topology = Topology.Leader ∨ s.topology = Topology.Initializer) →
        CensusList.get cl (Service.service_group_str s) = some census →
        observedCondition census.me = ElectionCondition.finished →
        census.leader = some leader_id →
        (Service.restart s cl (Except.error e)).outcome = RestartOutcome.err e
        ∧ (Service.restart s cl (Except.error e)).svc.needs_restart = false
        ∧ (Service.restart s cl (Except.error e)).restartIssued = true) := by
  constructor
  · intro hts
    rw [restart_eq_standalone s cl _ hts]
    simp [finishRestart]
  · intro census leader_id htop hget hcond hld
    obtain ⟨hr, hq, hf⟩ := (observedCondition_finished_iff census.me).mp hcond
    rw [restart_get_some s cl _ census htop hget]
    simp [restartElection, hr, hq, hf, hld, finishRestart, apply_ite]

/-- Witness for C10: concrete standalone and finished-election calls with
a failing supervisor both propagate the error with the flag cleared. -/
theorem restart_error_propagates_flag_cleared_witness :
    (Service.restart svcStandalone { groups := [] } (Except.error "spawn failed")).svc.needs_restart
        = false
    ∧ (Service.restart svcLeader clFinished (Except.error "spawn failed")).outcome
        = RestartOutcome.err "spawn failed"
    ∧ (Service.restart svcLeader clFinished (Except.error "spawn failed")).svc.needs_restart
        = false := by
  refine ⟨?_, ?_, ?_⟩
  · exact ((restart_error_propagates_flag_cleared svcStandalone { groups := [] }
      "spawn failed").1 rfl).2.1
  · exact ((restart_error_propagates_flag_cleared svcLeader clFinished
      "spawn failed").2 censusFinished "node-42" (Or.inl rfl) rfl (by decide) rfl).1
  · exact ((restart_error_propagates_flag_cleared svcLeader clFinished
      "spawn failed").2 censusFinished "node-42" (Or.inl rfl) rfl (by decide) rfl).2.1

/-- Claim C1: `restart` issues a process restart unconditionally under
`Standalone`; under `Leader`/`Initializer` it issues one iff the census
contains this service group with observed condition finished (given the
collaborator contract that finished elections carry a leader), the
issuance is independent of the current display latch, and `needs_restart`
is set to false exactly in the branches that issue a restart. -/
theorem restart_policy
    (s : Service) (cl : CensusList) (sup : Except String Unit)
    (hleader : ∀ census : Census,
      CensusList.get cl (Service.service_group_str s) = some census →
      observedCondition census.me = ElectionCondition.finished →
      census.leader.isSome = true) :
    (s.topology = Topology.Standalone →
      (Service.restart s cl sup).restartIssued = true)
    ∧ ((s.topology = Topology.Leader ∨ s.topology = Topology.Initializer) →
      ((Service.restart s cl sup).restartIssued = true ↔
        ∃ census : Census,
          CensusList.get cl (Service.service_group_str s) = some census
          ∧ observedCondition census.me = ElectionCondition.finished))
    ∧ (∀ d : LastRestartDisplay,
        (Service.restart { s with last_restart_display := d } cl sup).restartIssued
          = (Service.restart s cl sup).restartIssued)
    ∧ ((Service.restart s cl sup).restartIssued = true →
        (Service.restart s cl sup).svc.needs_restart = false)
    ∧ ((Service.restart s cl sup).restartIssued = false →
        (Service.restart s cl sup).svc.needs_restart = s.needs_restart) := by
  have hneeds : ((Service.restart s cl sup).restartIssued = true →
        (Service.restart s cl sup).svc.needs_restart = false)
      ∧ ((Service.restart s cl sup).restartIssued = false →
        (Service.restart s cl sup).svc.needs_restart = s.needs_restart) := by
    rcases hts : s.topology with _ | _ | _
    · rw [restart_eq_standalone s cl sup hts]
      cases sup <;> simp [finishRestart]
    · cases hg : CensusList.get cl (Service.service_group_str s) with
      | none => rw [restart_get_none s cl sup (Or.inl hts) hg]; simp [restartNoop]
      | some census =>
        rw [restart_get_some s cl sup census (Or.inl hts) hg]
        exact ⟨(restartElection_issued s census sup).2.1,
               (restartElection_issued s census sup).2.2⟩
    · cases hg : CensusList.get cl (Service.service_group_str s) with
      | none => rw [restart_get_none s cl sup (Or.inr hts) hg]; simp [restartNoop]
      | some census =>
        rw [restart_get_some s cl sup census (Or.inr hts) hg]
        exact ⟨(restartElection_issued s census sup).2.1,
               (restartElection_issued s census sup).2.2⟩
  refine ⟨?_, ?_, ?_, hneeds.1, hneeds.2⟩
  · intro hts
    rw [restart_eq_standalone s cl sup hts]
    cases sup <;> simp [finishRestart]
  · intro htop
    cases hg : CensusList.get cl (Service.service_group_str s) with
    | none =>
      rw [restart_get_none s cl sup htop hg]
      simp [restartNoop, hg]
    | some census =>
      rw [restart_get_some s cl sup census htop hg]
      constructor
      · intro hi
        exact ⟨census, rfl, ((restartElection_issued s census sup).1.mp hi).1⟩
      · rintro ⟨census', hg', hcond'⟩
        have hcc : census = census' := Option.some.inj hg'
        subst hcc
        exact (restartElection_issued s census sup).1.mpr
          ⟨hcond', hleader census hg hcond'⟩
  · intro d
    exact restart_issued_display s cl sup d

/-- Witness for C1 at concrete inputs: a finished election issues a
restart and clears the flag; standalone issues unconditionally. -/
theorem restart_policy_witness :
    (Service.restart svcLeader clFinished (Except.ok ())).restartIssued = true
    ∧ (Service.restart svcLeader clFinished (Except.ok ())).svc.needs_restart = false
    ∧ (Service.restart svcStandalone { groups := [] }
        (Except.ok ())).restartIssued = true := by
  have hl : ∀ census : Census,
      CensusList.get clFinished (Service.service_group_str svcLeader) = some census →
      observedCondition census.me = ElectionCondition.finished →
      census.leader.isSome = true := by
    intro census hget hcond
    have h3 : (some censusFinished : Option Census) = some census := by
      rw [← hget]; decide
    rw [← Option.some.inj h3]
    decide
  have h := restart_policy svcLeader clFinished (Except.ok ()) hl
  have hi : (Service.restart svcLeader clFinished (Except.ok ())).restartIssued
      = true :=
    (h.2.1 (Or.inl rfl)).mpr ⟨censusFinished, by decide, by decide⟩
  have h2 := restart_policy svcStandalone { groups := [] } (Except.ok ())
    (by intro census hget hcond; simp [CensusList.get, lookupGroup] at hget)
  exact ⟨hi, h.2.2.2.1 hi, h2.1 rfl⟩

/-- Claim C7: under coordinated topology, across a run of `restart` calls
all observing the same election condition `c`, at most one log line
reporting `c` is emitted; per call, a line is emitted only when the
display latch differs from the condition's display state — that call sets
the latch — and once the latch matches, nothing more is emitted. -/
theorem restart_log_dedup
    (s : Service) (ticks : List (CensusList × Except String Unit))
    (c : ElectionCondition)
    (htop : s.topology = Topology.Leader ∨ s.topology = Topology.Initializer)
    (hticks : ∀ t ∈ ticks, ∃ census : Census,
      CensusList.get t.1 (Service.service_group_str s) = some census
      ∧ observedCondition census.me = c) :
    countLogsFor c (restartSeq s ticks).2 ≤ 1
    ∧ (∀ (t : Service) (cl : CensusList) (sup : Except String Unit)
        (census : Census),
        (t.topology = Topology.Leader ∨ t.topology = Topology.Initializer) →
        CensusList.get cl (Service.service_group_str t) = some census →
        observedCondition census.me = c →
        ((Service.restart t cl sup).logs ≠ [] →
          t.last_restart_display ≠ displayOf c
          ∧ (Service.restart t cl sup).svc.last_restart_display = displayOf c)
        ∧ (t.last_restart_display = displayOf c →
          (Service.restart t cl sup).logs = [])) := by
  refine ⟨restartSeq_count_le_one c ticks s htop hticks, ?_⟩
  intro t cl sup census htop' hget hcond
  rw [restart_get_some t cl sup census htop' hget]
  have hded := restartElection_dedup t census sup c hcond
  exact ⟨hded.2.1, fun hd => (hded.2.2.1 hd).1⟩

/-- Witness for C7: two ticks both observing a running election emit at
most one election-in-progress line. -/
theorem restart_log_dedup_witness :
    countLogsFor ElectionCondition.running
      (restartSeq svcLeader
        [(clRunning, Except.ok ()), (clRunning, Except.error "x")]).2 ≤ 1 := by
  have h := restart_log_dedup svcLeader
    [(clRunning, Except.ok ()), (clRunning, Except.error "x")]
    ElectionCondition.running (Or.inl rfl)
    (by
      intro t ht
      simp only [List.mem_cons, List.not_mem_nil, or_false] at ht
      rcases ht with rfl | rfl <;> exact ⟨censusRunning, by decide, by decide⟩)
  exact h.1

/-- Claim C2: a create/write failure leaves the canonical path exactly as
it was and skips the rename/chown/chmod; a rename failure also leaves the
canonical path untouched and skips chown/chmod; a chown failure skips
chmod; every failure returns false; and the call returns true exactly
when the content changed and all steps succeeded. -/
theorem write_config_failure_atomic (fs : FsState) (ox : FsOracle)
    (config : String) :
    ((ox.createOk = false ∨ ox.writeOk = false) →
      (write_butterfly_service_config fs ox config).ret = false
      ∧ (write_butterfly_service_config fs ox config).fs.canonical = fs.canonical
      ∧ FsStep.rename ∉ (write_butterfly_service_config fs ox config).steps
      ∧ FsStep.chown ∉ (write_butterfly_service_config fs ox config).steps
      ∧ FsStep.chmod ∉ (write_butterfly_service_config fs ox config).steps)
    ∧ (ox.renameOk = false →
      (write_butterfly_service_config fs ox config).ret = false
      ∧ (write_butterfly_service_config fs ox config).fs.canonical = fs.canonical
      ∧ FsStep.chown ∉ (write_butterfly_service_config fs ox config).steps
      ∧ FsStep.chmod ∉ (write_butterfly_service_config fs ox config).steps)
    ∧ (ox.chownOk = false →
      (write_butterfly_service_config fs ox config).ret = false
      ∧ FsStep.chmod ∉ (write_butterfly_service_config fs ox config).steps)
    ∧ (ox.chmodOk = false →
      (write_butterfly_service_config fs ox config).ret = false)
    ∧ ((write_butterfly_service_config fs ox config).ret = true ↔
        (hashString config ≠ currentChecksumOf fs.canonical
          ∧ ox.createOk = true ∧ ox.writeOk = true ∧ ox.renameOk = true
          ∧ ox.chownOk = true ∧ ox.chmodOk = true)) := by
  obtain ⟨c, w, rn, cn, cm⟩ := ox
  by_cases hh : hashString config = currentChecksumOf fs.canonical <;>
    cases c <;> cases w <;> cases rn <;> cases cn <;> cases cm <;>
      simp [write_butterfly_service_config, hh]

/-- Witness for C2: a failing `File::create` at a concrete input returns
false and leaves the canonical content in place with the later steps
unattempted. -/
theorem write_config_failure_atomic_witness :
    (write_butterfly_service_config fsHolding oxCreateFails "b=2").ret = false
    ∧ (write_butterfly_service_config fsHolding oxCreateFails "b=2").fs.canonical
        = fsHolding.canonical
    ∧ FsStep.rename ∉ (write_butterfly_service_config fsHolding oxCreateFails "b=2").steps := by
  have h := (write_config_failure_atomic fsHolding oxCreateFails "b=2").1
    (Or.inl rfl)
  exact ⟨h.1, h.2.1, h.2.2.1⟩

/-- Counterexample to claim C4: when the canonical path already holds
exactly the blob being written, the FIRST call already returns false (the
checksums match), so the claimed true-then-false pattern fails without a
precondition on the initial on-disk content. -/
theorem write_twice_cex :
    (write_butterfly_service_config fsHolding oxAllOk "a=1").ret = false := by
  decide

/-- Claim C4 as amended: provided the canonical path does not already hold
`x` (in particular when the file is missing, whose checksum is read as
`""`), two successive calls with the same `x` and a fully succeeding
first call return true then false; the second call finds the on-disk
hash equal to the hash of `x`, attempts no filesystem step, and leaves
the filesystem unchanged. -/
theorem write_twice_true_then_false
    (fs0 : FsState) (ox1 ox2 : FsOracle) (x : String)
    (hpre : fs0.canonical ≠ some x)
    (hc : ox1.createOk = true) (hw : ox1.writeOk = true)
    (hr : ox1.renameOk = true) (hn : ox1.chownOk = true)
    (hm : ox1.chmodOk = true) :
    (write_butterfly_service_config fs0 ox1 x).ret = true
    ∧ (write_butterfly_service_config fs0 ox1 x).fs.canonical = some x
    ∧ (write_butterfly_service_config
        (write_butterfly_service_config fs0 ox1 x).fs ox2 x).ret = false
    ∧ (write_butterfly_service_config
        (write_butterfly_service_config fs0 ox1 x).fs ox2 x).fs
      = (write_butterfly_service_config fs0 ox1 x).fs
    ∧ (write_butterfly_service_config
        (write_butterfly_service_config fs0 ox1 x).fs ox2 x).steps = []
    ∧ currentChecksumOf none = "" := by
  have hneq : hashString x ≠ currentChecksumOf fs0.canonical := by
    cases hfc : fs0.canonical with
    | none => simpa [currentChecksumOf] using hashString_ne_empty x
    | some cc =>
      simp only [currentChecksumOf]
      intro h
      exact hpre (hfc.trans (congrArg some (hashString_inj h).symm))
  have hfs1 : (write_butterfly_service_config fs0 ox1 x).fs
      = { canonical := some x, temp := none } := by
    simp [write_butterfly_service_config, hneq, hc, hw, hr, hn, hm]
  refine ⟨?_, ?_, ?_, ?_, ?_, rfl⟩
  · simp [write_butterfly_service_config, hneq, hc, hw, hr, hn, hm]
  · rw [hfs1]
  · rw [hfs1]; simp [write_butterfly_service_config, currentChecksumOf]
  · rw [hfs1]; simp [write_butterfly_service_config, currentChecksumOf]
  · rw [hfs1]; simp [write_butterfly_service_config, currentChecksumOf]

/-- Witness for the amended C4: from a missing canonical file, writing
`port=8080` twice returns true then false with no second write. -/
theorem write_twice_true_then_false_witness :
    (write_butterfly_service_config fsEmpty oxAllOk "port=8080").ret = true
    ∧ (write_butterfly_service_config
        (write_butterfly_service_config fsEmpty oxAllOk "port=8080").fs
        oxAllOk "port=8080").ret = false
    ∧ (write_butterfly_service_config
        (write_butterfly_service_config fsEmpty oxAllOk "port=8080").fs
        oxAllOk "port=8080").steps = [] := by
  have h := write_twice_true_then_false fsEmpty oxAllOk oxAllOk "port=8080"
    (by decide) rfl rfl rfl rfl rfl
  exact ⟨h.1, h.2.2.1, h.2.2.2.2.1⟩

end Habitat
